import Mathlib

/-!
Verification development for the per-frame simulation core of a 3-vs-3
objective shooter (`cs_lite`).  The C++ sources are shallowly embedded:
floats become rationals (`ℚ`), C `int` becomes `Int`, `std::vector`
becomes `List`, and per-frame procedures become pure state-passing
functions.  Trigonometric derived data (a pawn's look direction) and the
geometric subroutine results (`Vector3Length` distances, `RaycastSolids`
hit records) are taken as explicit inputs where the embedded logic
consumes only their values.  Each section names the source file and the
lines it embeds.
-/

namespace CsLite

/-! ### Shared data: vectors, boxes (Constants.h / Entity.h) -/

/-- `Vector3` with rational components. -/
structure V3 where
  x : ℚ
  y : ℚ
  z : ℚ
  deriving DecidableEq, Repr

/-- raylib `BoundingBox`: min and max corners. -/
structure Box where
  min : V3
  max : V3
  deriving DecidableEq, Repr

/-- `MapSolid` (Entity.h): AABB plus floor flag; the render colour is
dropped as the core ignores it. -/
structure MapSolid where
  bounds : Box
  isFloor : Bool
  deriving DecidableEq, Repr

/-- `Team` (Constants.h). -/
inductive Team where
  | ATTACK
  | DEFEND
  | NONE
  deriving DecidableEq, Repr

/-- `RoundState` (World.h). -/
inductive RoundState where
  | WAITING
  | ACTIVE
  | ROUND_OVER
  | MATCH_OVER
  deriving DecidableEq, Repr

/-- Constants.h. -/
def ROUND_TIME_SEC : ℚ := 90

/-- Constants.h: `OBJECTIVE_CAPTURE_SEC = 10.0f`. -/
def OBJECTIVE_CAPTURE_SEC : ℚ := 10

/-- World.h: `MAX_GRENADES = 16`. -/
def MAX_GRENADES : Int := 16

/-- World.h: `MAX_SMOKES = 8`. -/
def MAX_SMOKES : Int := 8

/-- World.h: `MAX_TRACERS = 64`. -/
def MAX_TRACERS : Int := 64

/-- Constants.h: `PLAYER_HEIGHT = 1.75f`. -/
def PLAYER_HEIGHT : ℚ := 7/4

/-- Constants.h: `PLAYER_RADIUS = 0.4f`. -/
def PLAYER_RADIUS : ℚ := 2/5

/-- Constants.h: `FRAG_RADIUS = 4.5f`. -/
def FRAG_RADIUS : ℚ := 9/2

/-- Constants.h: `FRAG_DAMAGE = 80.0f`. -/
def FRAG_DAMAGE : ℚ := 80

/-- Constants.h: `FRAG_FUSE_SEC = 2.5f`. -/
def FRAG_FUSE_SEC : ℚ := 5/2

/-- Constants.h: `SMOKE_RADIUS = 3.5f`. -/
def SMOKE_RADIUS : ℚ := 7/2

/-- Constants.h: `SMOKE_DURATION_SEC = 12.0f`. -/
def SMOKE_DURATION_SEC : ℚ := 12

/-- Constants.h: `STUN_DURATION_SEC = 2.0f`. -/
def STUN_DURATION_SEC : ℚ := 2

/-- Constants.h: `MAX_HP = 100`. -/
def MAX_HP : Int := 100

/-! ### Round lifecycle (RoundManager.h, `UpdateRound`, ACTIVE case)

`UpdateRound`'s `RoundState::ACTIVE` branch (RoundManager.h lines 81-119)
is embedded as `updateActive`.  The in-zone test in the source is
`Vector3Length(p.pos - objective.pos) < objective.radius`; we compare the
squared distance with the squared radius, which is equivalent because
both sides are non-negative and squaring is monotone, and keeps the model
inside `ℚ` (no square root). -/

/-- Pawn data read by the round logic: team, alive flag, position. -/
structure RPawn where
  team : Team
  alive : Bool
  pos : V3
  deriving DecidableEq, Repr

/-- `ObjectiveZone` (Entity.h). -/
structure Objective where
  pos : V3
  radius : ℚ
  captureProgress : ℚ
  captured : Bool
  deriving DecidableEq, Repr

/-- The slice of `World` that `UpdateRound`'s ACTIVE branch touches. -/
structure RWorld where
  pawns : List RPawn
  objective : Objective
  roundTimer : ℚ
  roundState : RoundState
  roundWinner : Team
  scoreAttack : Int
  scoreDefend : Int
  deriving DecidableEq, Repr

/-- Squared Euclidean distance between two points. -/
def distSq (a b : V3) : ℚ :=
  (a.x - b.x) * (a.x - b.x) + (a.y - b.y) * (a.y - b.y) +
    (a.z - b.z) * (a.z - b.z)

/-- RoundManager.h lines 85-90: scan for a living attacker inside the
objective radius (squared-distance form of `d < radius`). -/
def anyAttackerInZone (pawns : List RPawn) (obj : Objective) : Bool :=
  pawns.any fun p =>
    p.alive && decide (p.team = Team.ATTACK)
      && decide (distSq p.pos obj.pos < obj.radius * obj.radius)

/-- `World::alivePawnsOnTeam` (World.h lines 57-60). -/
def alivePawnsOnTeam (pawns : List RPawn) (t : Team) : Bool :=
  pawns.any fun p => decide (p.team = t) && p.alive

/-- RoundManager.h lines 105-117: the elimination / timeout win checks
that run after the capture logic (the source's `attackAlive` and
`defendAlive` locals are inlined). -/
def elimCheck (w : RWorld) : RWorld :=
  if !alivePawnsOnTeam w.pawns Team.ATTACK || decide (w.roundTimer ≤ 0) then
    { w with roundWinner := Team.DEFEND, roundState := RoundState.ROUND_OVER,
             scoreDefend := w.scoreDefend + 1 }
  else if !alivePawnsOnTeam w.pawns Team.DEFEND then
    { w with roundWinner := Team.ATTACK, roundState := RoundState.ROUND_OVER,
             scoreAttack := w.scoreAttack + 1 }
  else w

/-- RoundManager.h lines 81-119: the `RoundState::ACTIVE` case of
`UpdateRound`.  The timer is decremented first; a capture that reaches
`OBJECTIVE_CAPTURE_SEC` ends the round at once (the source `return`s),
otherwise the elimination checks run. -/
def updateActive (w : RWorld) (dt : ℚ) : RWorld :=
  let w1 : RWorld := { w with roundTimer := w.roundTimer - dt }
  if anyAttackerInZone w1.pawns w1.objective then
    let prog := w1.objective.captureProgress + dt
    if OBJECTIVE_CAPTURE_SEC ≤ prog then
      { w1 with
        objective := { w1.objective with captureProgress := prog, captured := true },
        roundWinner := Team.ATTACK, roundState := RoundState.ROUND_OVER,
        scoreAttack := w1.scoreAttack + 1 }
    else
      elimCheck { w1 with
        objective := { w1.objective with captureProgress := prog } }
  else
    elimCheck { w1 with
      objective := { w1.objective with
        captureProgress := max 0 (w1.objective.captureProgress - dt * (1/2)) } }

/-- A living attacker in the zone is in particular a living attacker. -/
theorem anyAttackerInZone_alive {pawns : List RPawn} {obj : Objective}
    (h : anyAttackerInZone pawns obj = true) :
    alivePawnsOnTeam pawns Team.ATTACK = true := by
  simp only [anyAttackerInZone, List.any_eq_true, Bool.and_eq_true,
    decide_eq_true_eq] at h
  obtain ⟨p, hp, ⟨ha, ht⟩, _⟩ := h
  simp only [alivePawnsOnTeam, List.any_eq_true, Bool.and_eq_true, decide_eq_true_eq]
  exact ⟨p, hp, ht, ha⟩

/-- The defend-win branch of the elimination checks. -/
theorem elimCheck_defend {w : RWorld}
    (h : alivePawnsOnTeam w.pawns Team.ATTACK = false ∨ w.roundTimer ≤ 0) :
    elimCheck w =
      { w with roundWinner := Team.DEFEND, roundState := RoundState.ROUND_OVER,
               scoreDefend := w.scoreDefend + 1 } := by
  unfold elimCheck
  rcases h with h | h
  · simp [h]
  · simp [h]

/-- The attack-win branch of the elimination checks. -/
theorem elimCheck_attack {w : RWorld}
    (hA : alivePawnsOnTeam w.pawns Team.ATTACK = true)
    (hT : 0 < w.roundTimer)
    (hD : alivePawnsOnTeam w.pawns Team.DEFEND = false) :
    elimCheck w =
      { w with roundWinner := Team.ATTACK, roundState := RoundState.ROUND_OVER,
               scoreAttack := w.scoreAttack + 1 } := by
  unfold elimCheck
  simp [hA, hD, not_le.mpr hT]

/-- With both teams alive and time remaining, the elimination checks do
nothing. -/
theorem elimCheck_none {w : RWorld}
    (hA : alivePawnsOnTeam w.pawns Team.ATTACK = true)
    (hT : 0 < w.roundTimer)
    (hD : alivePawnsOnTeam w.pawns Team.DEFEND = true) :
    elimCheck w = w := by
  unfold elimCheck
  simp [hA, hD, not_le.mpr hT]

/-- When the capture threshold is reached this frame, the ACTIVE step
ends the round for the attackers immediately (the source `return`s before
the elimination checks). -/
theorem updateActive_capture {w : RWorld} {dt : ℚ}
    (hz : anyAttackerInZone w.pawns w.objective = true)
    (hc : OBJECTIVE_CAPTURE_SEC ≤ w.objective.captureProgress + dt) :
    updateActive w dt =
      { w with roundTimer := w.roundTimer - dt,
               objective := { w.objective with
                 captureProgress := w.objective.captureProgress + dt,
                 captured := true },
               roundWinner := Team.ATTACK, roundState := RoundState.ROUND_OVER,
               scoreAttack := w.scoreAttack + 1 } := by
  unfold updateActive
  simp [hz, hc]

/-- The state reached by the non-capturing part of the ACTIVE step (timer
decrement plus capture-progress gain or decay), before the elimination
checks; used to phrase `updateActive_eq_elim`. -/
def captureStep (w : RWorld) (dt : ℚ) : RWorld :=
  { w with
    roundTimer := w.roundTimer - dt,
    objective := { w.objective with
      captureProgress :=
        (if anyAttackerInZone w.pawns w.objective then
          w.objective.captureProgress + dt
        else
          max 0 (w.objective.captureProgress - dt * (1/2))) } }

/-- When the capture threshold is not reached this frame, the ACTIVE step
is the elimination checks applied after the timer decrement and the
capture-progress update. -/
theorem updateActive_eq_elim {w : RWorld} {dt : ℚ}
    (hcap : ¬(anyAttackerInZone w.pawns w.objective = true ∧
              OBJECTIVE_CAPTURE_SEC ≤ w.objective.captureProgress + dt)) :
    updateActive w dt = elimCheck (captureStep w dt) := by
  unfold updateActive captureStep
  by_cases hz : anyAttackerInZone w.pawns w.objective = true
  · have hc : ¬ OBJECTIVE_CAPTURE_SEC ≤ w.objective.captureProgress + dt :=
      fun hc => hcap ⟨hz, hc⟩
    simp [hz, hc]
  · simp only [Bool.not_eq_true] at hz
    simp [hz]

/-- The elimination checks never change the objective. -/
theorem elimCheck_objective (w : RWorld) : (elimCheck w).objective = w.objective := by
  unfold elimCheck
  split_ifs <;> rfl

/-- A pointwise description of `captureStep`: only the round timer and
the capture progress change. -/
theorem captureStep_fields (w : RWorld) (dt : ℚ) :
    (captureStep w dt).pawns = w.pawns ∧
    (captureStep w dt).roundTimer = w.roundTimer - dt ∧
    (captureStep w dt).roundState = w.roundState ∧
    (captureStep w dt).roundWinner = w.roundWinner ∧
    (captureStep w dt).scoreAttack = w.scoreAttack ∧
    (captureStep w dt).scoreDefend = w.scoreDefend :=
  ⟨rfl, rfl, rfl, rfl, rfl, rfl⟩

/-- C1: during an ACTIVE round, once the capture logic has run without
ending the round, the defending team wins (state ROUND_OVER, defend score
+1) when no attacker is alive or the decremented round timer is ≤ 0;
otherwise the attacking team wins (attack score +1) when no defender is
alive; otherwise nothing changes about scores or state; and across the
whole step the two scores together grow by exactly one exactly when the
round ends this frame. -/
theorem C1_active_win_conditions (w : RWorld) (dt : ℚ)
    (hACT : w.roundState = RoundState.ACTIVE)
    (hcap : ¬(anyAttackerInZone w.pawns w.objective = true ∧
              OBJECTIVE_CAPTURE_SEC ≤ w.objective.captureProgress + dt)) :
    ((alivePawnsOnTeam w.pawns Team.ATTACK = false ∨ w.roundTimer - dt ≤ 0) →
      (updateActive w dt).roundState = RoundState.ROUND_OVER ∧
      (updateActive w dt).roundWinner = Team.DEFEND ∧
      (updateActive w dt).scoreDefend = w.scoreDefend + 1 ∧
      (updateActive w dt).scoreAttack = w.scoreAttack) ∧
    ((alivePawnsOnTeam w.pawns Team.ATTACK = true ∧ 0 < w.roundTimer - dt ∧
        alivePawnsOnTeam w.pawns Team.DEFEND = false) →
      (updateActive w dt).roundState = RoundState.ROUND_OVER ∧
      (updateActive w dt).roundWinner = Team.ATTACK ∧
      (updateActive w dt).scoreAttack = w.scoreAttack + 1 ∧
      (updateActive w dt).scoreDefend = w.scoreDefend) ∧
    ((alivePawnsOnTeam w.pawns Team.ATTACK = true ∧ 0 < w.roundTimer - dt ∧
        alivePawnsOnTeam w.pawns Team.DEFEND = true) →
      (updateActive w dt).roundState = RoundState.ACTIVE ∧
      (updateActive w dt).scoreAttack = w.scoreAttack ∧
      (updateActive w dt).scoreDefend = w.scoreDefend) ∧
    ((updateActive w dt).scoreAttack + (updateActive w dt).scoreDefend =
      w.scoreAttack + w.scoreDefend +
        (if (updateActive w dt).roundState = RoundState.ROUND_OVER then 1 else 0)) := by
  rw [updateActive_eq_elim hcap]
  refine ⟨?_, ?_, ?_, ?_⟩
  · rintro (hA | hT)
    · simp [elimCheck, captureStep, hA]
    · simp [elimCheck, captureStep, hT]
  · rintro ⟨hA, hT, hD⟩
    simp [elimCheck, captureStep, hA, hD, not_le.mpr hT]
  · rintro ⟨hA, hT, hD⟩
    simp [elimCheck, captureStep, hA, hD, not_le.mpr hT, hACT]
  · by_cases hT : w.roundTimer - dt ≤ 0
    · simp only [elimCheck, captureStep, hT]
      simp
      ring
    · by_cases hA : alivePawnsOnTeam w.pawns Team.ATTACK = true
      · by_cases hD : alivePawnsOnTeam w.pawns Team.DEFEND = true
        · simp [elimCheck, captureStep, hA, hD, hT, hACT]
        · have hD' : alivePawnsOnTeam w.pawns Team.DEFEND = false := by
            simpa using hD
          simp [elimCheck, captureStep, hA, hD', hT]
          ring
      · have hA' : alivePawnsOnTeam w.pawns Team.ATTACK = false := by
          simpa using hA
        simp [elimCheck, captureStep, hA']
        ring

/-- Concrete round world used by the C1 witness: one living pawn per
team, nobody in the objective zone, half a second on the clock. -/
def wC1w : RWorld :=
  { pawns := [⟨Team.ATTACK, true, ⟨0, 0, 0⟩⟩, ⟨Team.DEFEND, true, ⟨50, 0, 0⟩⟩],
    objective := ⟨⟨100, 0, 0⟩, 3, 0, false⟩,
    roundTimer := 1/2, roundState := RoundState.ACTIVE,
    roundWinner := Team.NONE, scoreAttack := 0, scoreDefend := 0 }

/-- C1 witness: one tick of a 0.5-second clock with both teams alive ends
the round in the defenders' favour with their score incremented. -/
theorem C1_active_win_conditions_witness :
    (updateActive wC1w 1).roundState = RoundState.ROUND_OVER ∧
    (updateActive wC1w 1).roundWinner = Team.DEFEND ∧
    (updateActive wC1w 1).scoreDefend = wC1w.scoreDefend + 1 ∧
    (updateActive wC1w 1).scoreAttack = wC1w.scoreAttack :=
  (C1_active_win_conditions wC1w 1 rfl
      (fun h => absurd h.2 (by norm_num [wC1w, OBJECTIVE_CAPTURE_SEC]))).1
    (Or.inr (by norm_num [wC1w]))

/-- C2: during an ACTIVE round, a living attacker in the objective zone
makes capture progress grow by `dt`; reaching `OBJECTIVE_CAPTURE_SEC` sets
the captured flag, declares the attackers the winners, increments their
score and ends the round; with no attacker in the zone the progress decays
at half rate and never drops below zero. -/
theorem C2_objective_capture (w : RWorld) (dt : ℚ) :
    (anyAttackerInZone w.pawns w.objective = true →
      (updateActive w dt).objective.captureProgress =
        w.objective.captureProgress + dt) ∧
    (anyAttackerInZone w.pawns w.objective = true ∧
        OBJECTIVE_CAPTURE_SEC ≤ w.objective.captureProgress + dt →
      (updateActive w dt).objective.captured = true ∧
      (updateActive w dt).roundWinner = Team.ATTACK ∧
      (updateActive w dt).scoreAttack = w.scoreAttack + 1 ∧
      (updateActive w dt).roundState = RoundState.ROUND_OVER) ∧
    (anyAttackerInZone w.pawns w.objective = false →
      (updateActive w dt).objective.captureProgress =
        max 0 (w.objective.captureProgress - dt * (1/2)) ∧
      0 ≤ (updateActive w dt).objective.captureProgress) := by
  refine ⟨?_, ?_, ?_⟩
  · intro hz
    by_cases hc : OBJECTIVE_CAPTURE_SEC ≤ w.objective.captureProgress + dt
    · rw [updateActive_capture hz hc]
    · rw [updateActive_eq_elim (fun h => hc h.2), elimCheck_objective]
      simp [captureStep, hz]
  · rintro ⟨hz, hc⟩
    rw [updateActive_capture hz hc]
    exact ⟨rfl, rfl, rfl, rfl⟩
  · intro hz
    have hcap : ¬(anyAttackerInZone w.pawns w.objective = true ∧
        OBJECTIVE_CAPTURE_SEC ≤ w.objective.captureProgress + dt) := by
      simp [hz]
    rw [updateActive_eq_elim hcap, elimCheck_objective]
    constructor
    · simp [captureStep, hz]
    · simp [captureStep, hz]

/-- Concrete round world used by the C2 witness: a single living attacker
standing on the objective with 9.5 seconds of progress banked. -/
def wC2w : RWorld :=
  { pawns := [⟨Team.ATTACK, true, ⟨0, 0, 0⟩⟩],
    objective := ⟨⟨0, 0, 0⟩, 3, 19/2, false⟩,
    roundTimer := 90, roundState := RoundState.ACTIVE,
    roundWinner := Team.NONE, scoreAttack := 0, scoreDefend := 0 }

/-- C2 witness: one more second of holding the zone crosses the 10-second
capture threshold and ends the round for the attackers. -/
theorem C2_objective_capture_witness :
    (updateActive wC2w 1).objective.captured = true ∧
    (updateActive wC2w 1).roundWinner = Team.ATTACK ∧
    (updateActive wC2w 1).scoreAttack = wC2w.scoreAttack + 1 ∧
    (updateActive wC2w 1).roundState = RoundState.ROUND_OVER :=
  (C2_objective_capture wC2w 1).2.1
    ⟨by norm_num [anyAttackerInZone, distSq, wC2w],
     by norm_num [wC2w, OBJECTIVE_CAPTURE_SEC]⟩

/-- C10: if both teams are fully eliminated in the same ACTIVE frame the
defenders win the round (the attacker-elimination check has priority),
and the attackers can win by elimination only while at least one attacker
lives and the decremented round timer is still positive. -/
theorem C10_simultaneous_elimination (w : RWorld) (dt : ℚ) :
    ((alivePawnsOnTeam w.pawns Team.ATTACK = false ∧
        alivePawnsOnTeam w.pawns Team.DEFEND = false) →
      (updateActive w dt).roundState = RoundState.ROUND_OVER ∧
      (updateActive w dt).roundWinner = Team.DEFEND ∧
      (updateActive w dt).scoreDefend = w.scoreDefend + 1 ∧
      (updateActive w dt).scoreAttack = w.scoreAttack) ∧
    ((w.roundWinner = Team.NONE ∧
        ¬(anyAttackerInZone w.pawns w.objective = true ∧
          OBJECTIVE_CAPTURE_SEC ≤ w.objective.captureProgress + dt) ∧
        (updateActive w dt).roundWinner = Team.ATTACK) →
      alivePawnsOnTeam w.pawns Team.ATTACK = true ∧ 0 < w.roundTimer - dt ∧
      alivePawnsOnTeam w.pawns Team.DEFEND = false) := by
  constructor
  · rintro ⟨hA, _⟩
    have hz : anyAttackerInZone w.pawns w.objective = false := by
      cases hzc : anyAttackerInZone w.pawns w.objective with
      | false => rfl
      | true => exact absurd (anyAttackerInZone_alive hzc) (by simp [hA])
    have hcap : ¬(anyAttackerInZone w.pawns w.objective = true ∧
        OBJECTIVE_CAPTURE_SEC ≤ w.objective.captureProgress + dt) := by
      simp [hz]
    rw [updateActive_eq_elim hcap]
    simp [elimCheck, captureStep, hA]
  · rintro ⟨hN, hcap, hW⟩
    rw [updateActive_eq_elim hcap] at hW
    by_cases hT : w.roundTimer - dt ≤ 0
    · simp [elimCheck, captureStep, hT] at hW
    · by_cases hA : alivePawnsOnTeam w.pawns Team.ATTACK = true
      · by_cases hD : alivePawnsOnTeam w.pawns Team.DEFEND = true
        · simp [elimCheck, captureStep, hA, hD, hT, hN] at hW
        · have hD' : alivePawnsOnTeam w.pawns Team.DEFEND = false := by
            simpa using hD
          exact ⟨hA, lt_of_not_le hT, hD'⟩
      · have hA' : alivePawnsOnTeam w.pawns Team.ATTACK = false := by
          simpa using hA
        simp [elimCheck, captureStep, hA'] at hW

/-- Concrete round world used by the C10 witness: every pawn on both
teams is dead, plenty of time on the clock. -/
def wC10w : RWorld :=
  { pawns := [⟨Team.ATTACK, false, ⟨0, 0, 0⟩⟩, ⟨Team.DEFEND, false, ⟨50, 0, 0⟩⟩],
    objective := ⟨⟨100, 0, 0⟩, 3, 0, false⟩,
    roundTimer := 90, roundState := RoundState.ACTIVE,
    roundWinner := Team.NONE, scoreAttack := 0, scoreDefend := 0 }

/-- C10 witness: with both teams simultaneously eliminated, the step
awards the round to the defenders. -/
theorem C10_simultaneous_elimination_witness :
    (updateActive wC10w 1).roundState = RoundState.ROUND_OVER ∧
    (updateActive wC10w 1).roundWinner = Team.DEFEND ∧
    (updateActive wC10w 1).scoreDefend = wC10w.scoreDefend + 1 ∧
    (updateActive wC10w 1).scoreAttack = wC10w.scoreAttack :=
  (C10_simultaneous_elimination wC10w 1).1
    ⟨by norm_num [alivePawnsOnTeam, wC10w], by norm_num [alivePawnsOnTeam, wC10w]⟩

/-! ### Weapons (Constants.h `WEAPON_TABLE`, Entity.h `WeaponState`,
WeaponSystem.h `WeaponFire` / `WeaponTick`, InputSystem.h reload key)

`WeaponFire`'s effect on the firing pawn's `WeaponState` (ammo, cooldown,
auto-reload) is embedded as `weaponFire`; the pellet raycasts, pawn
damage and tracer spawning touch only the rest of the `World` and are
modelled in the utility/tracer sections.  The audio notification is
dropped. -/

/-- `WeaponID` (Constants.h). -/
inductive WeaponID where
  | PISTOL
  | SMG
  | RIFLE
  | SNIPER
  | SHOTGUN
  deriving DecidableEq, Repr

/-- `WeaponStats` (Constants.h); the display name is dropped. -/
structure WeaponStats where
  damage : Int
  magSize : Int
  fireRateRPM : ℚ
  reloadTimeSec : ℚ
  spreadRad : ℚ
  adsSpreadMult : ℚ
  range : ℚ
  pellets : Int
  semiAuto : Bool
  deriving DecidableEq, Repr

/-- `WEAPON_TABLE` (Constants.h), keyed by `WeaponID` rather than by the
enum's integer value. -/
def WEAPON_TABLE : WeaponID → WeaponStats
  | WeaponID.PISTOL => ⟨35, 12, 300, 3/2, 3/100, 2/5, 80, 1, true⟩
  | WeaponID.SMG => ⟨22, 25, 900, 2, 8/100, 3/5, 50, 1, false⟩
  | WeaponID.RIFLE => ⟨30, 30, 600, 11/5, 2/100, 3/10, 150, 1, false⟩
  | WeaponID.SNIPER => ⟨100, 5, 40, 7/2, 5/1000, 1/10, 300, 1, true⟩
  | WeaponID.SHOTGUN => ⟨18, 6, 120, 14/5, 2/10, 1/2, 20, 8, false⟩

/-- `WeaponState` (Entity.h). -/
structure WeaponState where
  id : WeaponID
  ammoMag : Int
  ammoReserve : Int
  reloadTimer : ℚ
  fireCooldown : ℚ
  isADS : Bool
  deriving DecidableEq, Repr

/-- `WeaponState::stats` (Entity.h line 32). -/
def WeaponState.stats (ws : WeaponState) : WeaponStats :=
  WEAPON_TABLE ws.id

/-- `WeaponState::canFire` (Entity.h line 33). -/
def WeaponState.canFire (ws : WeaponState) : Bool :=
  decide (ws.fireCooldown ≤ 0) && decide (ws.reloadTimer ≤ 0) &&
    decide (ws.ammoMag > 0)

/-- WeaponSystem.h lines 82-124 (`WeaponFire`), restricted to the
shooter's `WeaponState`: the early-out on `canFire`, the magazine
decrement, the cooldown reset to `60 / fireRateRPM`, and the auto-reload
when the magazine has just emptied with reserve remaining.  The returned
flag records whether a shot was fired. -/
def weaponFire (ws : WeaponState) : WeaponState × Bool :=
  if !ws.canFire then (ws, false)
  else
    let st := ws.stats
    let ws1 : WeaponState :=
      { ws with ammoMag := ws.ammoMag - 1, fireCooldown := 60 / st.fireRateRPM }
    if ws1.ammoMag == 0 && decide (ws1.ammoReserve > 0) then
      ({ ws1 with reloadTimer := st.reloadTimeSec }, true)
    else (ws1, true)

/-- `WeaponTick` (WeaponSystem.h lines 127-139): cooldown countdown,
reload countdown, and the reserve-to-magazine transfer when the reload
countdown crosses zero. -/
def weaponTick (ws : WeaponState) (dt : ℚ) : WeaponState :=
  let ws1 : WeaponState :=
    if ws.fireCooldown > 0 then
      { ws with fireCooldown := ws.fireCooldown - dt }
    else ws
  if ws1.reloadTimer > 0 then
    let ws2 : WeaponState := { ws1 with reloadTimer := ws1.reloadTimer - dt }
    if ws2.reloadTimer ≤ 0 then
      let st := ws2.stats
      let need := st.magSize - ws2.ammoMag
      let take := min need ws2.ammoReserve
      { ws2 with ammoMag := ws2.ammoMag + take,
                 ammoReserve := ws2.ammoReserve - take }
    else ws2
  else ws1

/-- InputSystem.h lines 100-101: the manual reload request (reload key
pressed).  The only guard in the source is `reloadTimer <= 0`. -/
def reloadRequest (ws : WeaponState) : WeaponState :=
  if ws.reloadTimer ≤ 0 then { ws with reloadTimer := ws.stats.reloadTimeSec }
  else ws

/-- One weapon-state operation: a fire attempt, a manual reload request,
or a per-frame tick. -/
inductive WOp where
  | fire
  | reloadReq
  | tick (dt : ℚ)

/-- Apply one operation to a weapon state. -/
def runWOp (ws : WeaponState) : WOp → WeaponState
  | WOp.fire => (weaponFire ws).1
  | WOp.reloadReq => reloadRequest ws
  | WOp.tick dt => weaponTick ws dt

/-- Apply a sequence of operations to a weapon state. -/
def runWOps (ws : WeaponState) (ops : List WOp) : WeaponState :=
  ops.foldl runWOp ws

/-- C3: a fire request changes nothing unless the magazine is non-empty,
no reload is running and the cooldown has elapsed; a successful shot
removes exactly one round, resets the cooldown to `60 / fireRateRPM`, and
auto-starts a reload exactly when the magazine just emptied with reserve
remaining. -/
theorem C3_weapon_fire_contract (ws : WeaponState) :
    (ws.canFire = true ↔
      0 < ws.ammoMag ∧ ws.reloadTimer ≤ 0 ∧ ws.fireCooldown ≤ 0) ∧
    (ws.canFire = false → weaponFire ws = (ws, false)) ∧
    (ws.canFire = true →
      (weaponFire ws).2 = true ∧
      (weaponFire ws).1.ammoMag = ws.ammoMag - 1 ∧
      (weaponFire ws).1.fireCooldown = 60 / ws.stats.fireRateRPM) ∧
    (ws.canFire = true ∧ ws.ammoMag - 1 = 0 ∧ 0 < ws.ammoReserve →
      (weaponFire ws).1.reloadTimer = ws.stats.reloadTimeSec) ∧
    (ws.canFire = true ∧ ¬(ws.ammoMag - 1 = 0 ∧ 0 < ws.ammoReserve) →
      (weaponFire ws).1.reloadTimer = ws.reloadTimer) := by
  refine ⟨?_, ?_, ?_, ?_, ?_⟩
  · simp only [WeaponState.canFire, Bool.and_eq_true, decide_eq_true_eq]
    tauto
  · intro h
    simp [weaponFire, h]
  · intro h
    simp only [weaponFire, h, Bool.not_true, Bool.false_eq_true, if_false]
    refine ⟨?_, ?_, ?_⟩ <;> (split <;> rfl)
  · rintro ⟨h, hm, hr⟩
    simp [weaponFire, h, hm, hr]
  · rintro ⟨h, hmr⟩
    simp only [weaponFire, h, Bool.not_true, Bool.false_eq_true, if_false]
    rw [if_neg]
    simp only [Bool.and_eq_true, beq_iff_eq, decide_eq_true_eq]
    exact hmr

/-- A full rifle: 30 of 30 in the magazine, 90 reserve, idle timers. -/
def wsFull : WeaponState :=
  { id := WeaponID.RIFLE, ammoMag := 30, ammoReserve := 90,
    reloadTimer := 0, fireCooldown := 0, isADS := false }

/-- C3 witness: a rifle with one round left fires, empties the magazine,
gets its 1/10-second cooldown, and auto-starts the 2.2-second reload. -/
theorem C3_weapon_fire_contract_witness :
    ({ wsFull with ammoMag := 1 } : WeaponState).canFire = true ∧
    (weaponFire { wsFull with ammoMag := 1 }).1.ammoMag =
      ({ wsFull with ammoMag := 1 } : WeaponState).ammoMag - 1 ∧
    (weaponFire { wsFull with ammoMag := 1 }).1.fireCooldown =
      60 / ({ wsFull with ammoMag := 1 } : WeaponState).stats.fireRateRPM ∧
    (weaponFire { wsFull with ammoMag := 1 }).1.reloadTimer =
      ({ wsFull with ammoMag := 1 } : WeaponState).stats.reloadTimeSec := by
  have h := C3_weapon_fire_contract { wsFull with ammoMag := 1 }
  have hc : ({ wsFull with ammoMag := 1 } : WeaponState).canFire = true := rfl
  exact ⟨hc, (h.2.2.1 hc).2.1, (h.2.2.1 hc).2.2,
    h.2.2.2.1 ⟨hc, rfl, by norm_num [wsFull]⟩⟩

/-- C7 counterexample: the manual reload request starts a reload even
with a completely full magazine (the source guard is only
`reloadTimer <= 0`), contradicting the claim that a reload can only start
when the magazine is not full. -/
theorem C7_reload_full_mag_counterexample :
    wsFull.ammoMag = wsFull.stats.magSize ∧ wsFull.reloadTimer ≤ 0 ∧
    0 < (reloadRequest wsFull).reloadTimer := by
  refine ⟨rfl, le_refl 0, ?_⟩
  norm_num [reloadRequest, wsFull, WeaponState.stats, WEAPON_TABLE]

/-- The ammo-range invariant preserved by every weapon operation. -/
def WInv (ws : WeaponState) : Prop :=
  0 ≤ ws.ammoMag ∧ ws.ammoMag ≤ ws.stats.magSize ∧ 0 ≤ ws.ammoReserve

/-- One weapon operation preserves the ammo-range invariant. -/
theorem WInv_runWOp {ws : WeaponState} (op : WOp) (h : WInv ws) :
    WInv (runWOp ws op) := by
  obtain ⟨h1, h2, h3⟩ := h
  have h2' : ws.ammoMag ≤ (WEAPON_TABLE ws.id).magSize := h2
  cases op with
  | fire =>
    show WInv (weaponFire ws).1
    by_cases hc : ws.canFire = true
    · have hm : 0 < ws.ammoMag := by
        simp only [WeaponState.canFire, Bool.and_eq_true, decide_eq_true_eq] at hc
        exact hc.2
      have k1 : (0 : Int) ≤ ws.ammoMag - 1 := by omega
      have k2 : ws.ammoMag - 1 ≤ (WEAPON_TABLE ws.id).magSize := by omega
      simp only [weaponFire, hc, Bool.not_true, Bool.false_eq_true, if_false]
      split <;> exact ⟨k1, k2, h3⟩
    · have hc' : ws.canFire = false := by simpa using hc
      simp only [weaponFire, hc', Bool.not_false, if_true]
      exact ⟨h1, h2, h3⟩
  | reloadReq =>
    show WInv (reloadRequest ws)
    unfold reloadRequest
    split <;> exact ⟨h1, h2, h3⟩
  | tick dt =>
    show WInv (weaponTick ws dt)
    have k3 : (0 : Int) ≤
        ws.ammoMag + min ((WEAPON_TABLE ws.id).magSize - ws.ammoMag) ws.ammoReserve := by
      omega
    have k4 : ws.ammoMag + min ((WEAPON_TABLE ws.id).magSize - ws.ammoMag) ws.ammoReserve ≤
        (WEAPON_TABLE ws.id).magSize := by
      omega
    have k5 : (0 : Int) ≤
        ws.ammoReserve - min ((WEAPON_TABLE ws.id).magSize - ws.ammoMag) ws.ammoReserve := by
      omega
    simp only [weaponTick]
    split_ifs <;> first
      | exact ⟨h1, h2, h3⟩
      | exact ⟨k3, k4, k5⟩

/-- The amended C7: over every sequence of fire, manual-reload and tick
operations, magazine and reserve ammo stay non-negative (and the magazine
stays within capacity); and a reload countdown is only ever started by an
operation when no reload is already in progress — firing requires
`reloadTimer ≤ 0`, the manual request is guarded by `reloadTimer <= 0`,
and a non-negative tick never raises the countdown. -/
theorem C7_ammo_invariant_amended (ws : WeaponState) (ops : List WOp)
    (h0 : 0 ≤ ws.ammoMag ∧ ws.ammoMag ≤ ws.stats.magSize ∧ 0 ≤ ws.ammoReserve) :
    (0 ≤ (runWOps ws ops).ammoMag ∧
      (runWOps ws ops).ammoMag ≤ (runWOps ws ops).stats.magSize ∧
      0 ≤ (runWOps ws ops).ammoReserve) ∧
    (∀ w : WeaponState,
      w.reloadTimer < (weaponFire w).1.reloadTimer → w.reloadTimer ≤ 0) ∧
    (∀ w : WeaponState,
      w.reloadTimer < (reloadRequest w).reloadTimer → w.reloadTimer ≤ 0) ∧
    (∀ (w : WeaponState) (dt : ℚ), 0 ≤ dt →
      (weaponTick w dt).reloadTimer ≤ w.reloadTimer) := by
  refine ⟨?_, ?_, ?_, ?_⟩
  · have main : ∀ (l : List WOp) (w : WeaponState), WInv w → WInv (runWOps w l) := by
      intro l
      induction l with
      | nil => exact fun w h => h
      | cons op rest ih =>
        intro w h
        exact ih (runWOp w op) (WInv_runWOp op h)
    exact main ops ws h0
  · intro w hgt
    by_cases hc : w.canFire = true
    · simp only [WeaponState.canFire, Bool.and_eq_true, decide_eq_true_eq] at hc
      exact hc.1.2
    · have hc' : w.canFire = false := by simpa using hc
      simp [weaponFire, hc'] at hgt
  · intro w hgt
    unfold reloadRequest at hgt
    split at hgt
    · assumption
    · exact absurd hgt (lt_irrefl _)
  · intro w dt hdt
    show (weaponTick w dt).reloadTimer ≤ w.reloadTimer
    simp only [weaponTick]
    split_ifs <;> (try dsimp only) <;> linarith

/-- C7 amended-claim witness: the full rifle fires once and ticks one
second; ammo counters stay in range. -/
theorem C7_ammo_invariant_amended_witness :
    0 ≤ (runWOps wsFull [WOp.fire, WOp.tick 1]).ammoMag ∧
    (runWOps wsFull [WOp.fire, WOp.tick 1]).ammoMag ≤
      (runWOps wsFull [WOp.fire, WOp.tick 1]).stats.magSize ∧
    0 ≤ (runWOps wsFull [WOp.fire, WOp.tick 1]).ammoReserve :=
  (C7_ammo_invariant_amended wsFull [WOp.fire, WOp.tick 1]
    ⟨by norm_num [wsFull], by norm_num [wsFull, WeaponState.stats, WEAPON_TABLE],
     by norm_num [wsFull]⟩).1

/-! ### Utility throws and grenade effects (WeaponSystem.h `ThrowUtility`,
UtilitySystem.h `UpdateUtility`)

The thrower's look direction is the result of `Pawn::lookDir()`
(trigonometry of yaw/pitch) and enters the model as the stored `look`
vector; `eyePos` is embedded arithmetically.  The frag blast applies
per-pawn damage from the pawn's distance to the blast point
(`Vector3Length`, supplied as the input `d`) and the `RaycastSolids`
result (supplied as the inputs `hrHit`/`hrDist`), exactly as the
detonation loop consumes them. -/

/-- `UtilityID` (Constants.h). -/
inductive UtilityID where
  | FRAG
  | SMOKE
  | STUN
  deriving DecidableEq, Repr

/-- The thrower data read by `ThrowUtility`: pawn id, position, derived
look direction, and the three utility charge counters. -/
structure UPawn where
  id : Int
  pos : V3
  look : V3
  fragCount : Int
  smokeCount : Int
  stunCount : Int
  deriving DecidableEq, Repr

/-- `Pawn::eyePos` (Entity.h lines 67-69): position raised by
`PLAYER_HEIGHT * 0.9`. -/
def eyePos (p : UPawn) : V3 :=
  ⟨p.pos.x, p.pos.y + PLAYER_HEIGHT * (9/10), p.pos.z⟩

/-- `GrenadeEntity` (Entity.h). -/
structure Grenade where
  type : UtilityID
  pos : V3
  vel : V3
  fuseTimer : ℚ
  detonated : Bool
  activeTimer : ℚ
  ownerID : Int
  deriving DecidableEq, Repr

/-- The charge counter of a pawn for a given utility kind (the reference
chosen by `ThrowUtility`'s conditional, WeaponSystem.h lines 143-145). -/
def utilityCount (p : UPawn) : UtilityID → Int
  | UtilityID.FRAG => p.fragCount
  | UtilityID.SMOKE => p.smokeCount
  | UtilityID.STUN => p.stunCount

/-- Write back the charge counter chosen by `ThrowUtility`. -/
def setUtilityCount (p : UPawn) (t : UtilityID) (n : Int) : UPawn :=
  match t with
  | UtilityID.FRAG => { p with fragCount := n }
  | UtilityID.SMOKE => { p with smokeCount := n }
  | UtilityID.STUN => { p with stunCount := n }

/-- `ThrowUtility` (WeaponSystem.h lines 142-155): fail on an exhausted
counter, otherwise decrement it and append one grenade launched from the
eye position along the look direction with a `+4` upward component; frag
fuse `FRAG_FUSE_SEC`, smoke/stun fuse `0.8`.  The source pushes onto
`world.grenades` with no capacity test. -/
def throwUtility (p : UPawn) (t : UtilityID) (grenades : List Grenade) :
    UPawn × List Grenade × Bool :=
  if utilityCount p t ≤ 0 then (p, grenades, false)
  else
    (setUtilityCount p t (utilityCount p t - 1),
     grenades ++
       [⟨t, eyePos p,
         ⟨p.look.x * 12, p.look.y * 12 + 4, p.look.z * 12⟩,
         (if t = UtilityID.FRAG then FRAG_FUSE_SEC else 4/5), false, 0, p.id⟩],
     true)

/-- `SmokeZone` (Entity.h). -/
structure SmokeZone where
  pos : V3
  radius : ℚ
  lifeLeft : ℚ
  deriving DecidableEq, Repr

/-- `BulletTracer` (Entity.h); the colour is dropped and `end` is named
`endPoint`. -/
structure BulletTracer where
  origin : V3
  endPoint : V3
  lifeSec : ℚ
  deriving DecidableEq, Repr

/-- The smoke-detonation spawn (UtilitySystem.h lines 78-81): the new
zone is appended only below `MAX_SMOKES`. -/
def smokeSpawn (smokes : List SmokeZone) (pos : V3) : List SmokeZone :=
  if (smokes.length : Int) < MAX_SMOKES then
    smokes ++ [⟨pos, SMOKE_RADIUS, SMOKE_DURATION_SEC⟩]
  else smokes

/-- The per-pellet tracer append (WeaponSystem.h lines 112-117): the
tracer is pushed only below `MAX_TRACERS`. -/
def tracerAdd (tracers : List BulletTracer) (t : BulletTracer) :
    List BulletTracer :=
  if (tracers.length : Int) < MAX_TRACERS then tracers ++ [t] else tracers

/-- C9: a utility throw with an exhausted counter fails and changes
nothing; with a positive counter it consumes exactly one charge of that
kind (others untouched), reports success, and appends exactly one grenade
at the eye position with velocity `12·look + (0,4,0)`; the frag fuse is
strictly longer than the smoke/stun fuse. -/
theorem C9_throw_utility_contract (p : UPawn) (t : UtilityID)
    (gs : List Grenade) :
    (utilityCount p t ≤ 0 → throwUtility p t gs = (p, gs, false)) ∧
    (0 < utilityCount p t →
      (throwUtility p t gs).2.2 = true ∧
      utilityCount (throwUtility p t gs).1 t = utilityCount p t - 1 ∧
      (∀ u : UtilityID, u ≠ t →
        utilityCount (throwUtility p t gs).1 u = utilityCount p u) ∧
      (throwUtility p t gs).2.1 =
        gs ++ [⟨t, eyePos p,
          ⟨p.look.x * 12, p.look.y * 12 + 4, p.look.z * 12⟩,
          (if t = UtilityID.FRAG then FRAG_FUSE_SEC else 4/5), false, 0, p.id⟩]) ∧
    ((4 : ℚ)/5 < FRAG_FUSE_SEC) := by
  refine ⟨?_, ?_, ?_⟩
  · intro h
    simp [throwUtility, h]
  · intro h
    have hc : ¬ utilityCount p t ≤ 0 := not_le.mpr h
    have key : throwUtility p t gs =
        (setUtilityCount p t (utilityCount p t - 1),
         gs ++ [⟨t, eyePos p,
           ⟨p.look.x * 12, p.look.y * 12 + 4, p.look.z * 12⟩,
           (if t = UtilityID.FRAG then FRAG_FUSE_SEC else 4/5), false, 0, p.id⟩],
         true) := by
      simp [throwUtility, hc]
    rw [key]
    refine ⟨rfl, ?_, ?_, rfl⟩
    · cases t <;> rfl
    · intro u hu
      cases t <;> cases u <;> first | rfl | exact absurd rfl hu
  · norm_num [FRAG_FUSE_SEC]

/-- A pawn with one charge of each utility, looking along +z. -/
def pThrow : UPawn := ⟨0, ⟨1, 2, 3⟩, ⟨0, 0, 1⟩, 1, 1, 1⟩

/-- C9 witness: throwing the single frag succeeds and empties the frag
counter. -/
theorem C9_throw_utility_contract_witness :
    (throwUtility pThrow UtilityID.FRAG []).2.2 = true ∧
    utilityCount (throwUtility pThrow UtilityID.FRAG []).1 UtilityID.FRAG =
      utilityCount pThrow UtilityID.FRAG - 1 := by
  have h := (C9_throw_utility_contract pThrow UtilityID.FRAG []).2.1
    (by norm_num [utilityCount, pThrow])
  exact ⟨h.1, h.2.1⟩

/-- A placeholder live grenade for filling the list to capacity. -/
def gDummy : Grenade := ⟨UtilityID.SMOKE, ⟨0, 0, 0⟩, ⟨0, 0, 0⟩, 1, false, 0, 0⟩

/-- C5, failing input: with the grenade list already at `MAX_GRENADES`
(16), `ThrowUtility` appends a seventeenth grenade — unlike the smoke and
tracer adds, which drop the new entry once their list is at capacity. -/
theorem C5_grenade_capacity_overflow :
    ((throwUtility pThrow UtilityID.FRAG (List.replicate 16 gDummy)).2.1).length = 17 ∧
    MAX_GRENADES = 16 ∧
    smokeSpawn (List.replicate 8 ⟨⟨0,0,0⟩, SMOKE_RADIUS, SMOKE_DURATION_SEC⟩) ⟨0,0,0⟩ =
      List.replicate 8 ⟨⟨0,0,0⟩, SMOKE_RADIUS, SMOKE_DURATION_SEC⟩ ∧
    tracerAdd (List.replicate 64 ⟨⟨0,0,0⟩, ⟨0,0,0⟩, 6/100⟩) ⟨⟨0,0,0⟩, ⟨0,0,0⟩, 6/100⟩ =
      List.replicate 64 ⟨⟨0,0,0⟩, ⟨0,0,0⟩, 6/100⟩ := by
  refine ⟨?_, rfl, ?_, ?_⟩
  · have hc : ¬ utilityCount pThrow UtilityID.FRAG ≤ 0 := by
      norm_num [utilityCount, pThrow]
    simp [throwUtility, hc]
  · simp [smokeSpawn, MAX_SMOKES]
  · simp [tracerAdd, MAX_TRACERS]

/-- The C cast `(int)` of a non-negative value truncates toward zero;
on negatives it is the negated floor of the negation. -/
def truncQ (q : ℚ) : Int :=
  if 0 ≤ q then ⌊q⌋ else -⌊-q⌋

/-- The frag-detonation body for one pawn (UtilitySystem.h lines 56-73):
skip dead pawns and pawns beyond `FRAG_RADIUS`; treat the pawn as blocked
when the geometry raycast hit strictly closer than `d - 0.1`; otherwise
subtract `(int)(FRAG_DAMAGE * (1 - d/FRAG_RADIUS))` from health, floored
at 0, and clear the alive flag at zero health.  `d` is the
`Vector3Length` distance from the blast to the pawn; `hrHit`/`hrDist`
are the `RaycastSolids` result for the ray toward the pawn. -/
def fragApplyPawn (d : ℚ) (hrHit : Bool) (hrDist : ℚ) (hp : Int)
    (alive : Bool) : Int × Bool :=
  if !alive then (hp, alive)
  else if FRAG_RADIUS < d then (hp, alive)
  else if hrHit && decide (hrDist < d - 1/10) then (hp, alive)
  else
    let dmg := truncQ (FRAG_DAMAGE * (1 - d / FRAG_RADIUS))
    let hp' := max 0 (hp - dmg)
    (hp', if hp' ≤ 0 then false else alive)

/-- C4: a living pawn within the blast radius whose line of sight is
blocked by geometry strictly short of its own position takes no damage;
an unblocked pawn takes `(int)(D * (1 - d/R))` with health floored at 0 —
exactly `D` at distance 0 and zero damage at distance `R`; a raycast hit
at or beyond `d - 0.1` (effectively at the pawn) does not count as an
obstruction. -/
theorem C4_frag_falloff (d hrDist : ℚ) (hrHit : Bool) (hp : Int)
    (hR : d ≤ FRAG_RADIUS) :
    (hrHit = true → hrDist < d - 1/10 →
      fragApplyPawn d hrHit hrDist hp true = (hp, true)) ∧
    (¬(hrHit = true ∧ hrDist < d - 1/10) →
      (fragApplyPawn d hrHit hrDist hp true).1 =
        max 0 (hp - truncQ (FRAG_DAMAGE * (1 - d / FRAG_RADIUS))) ∧
      0 ≤ (fragApplyPawn d hrHit hrDist hp true).1) ∧
    (d = 0 → ¬(hrHit = true ∧ hrDist < d - 1/10) →
      (fragApplyPawn d hrHit hrDist hp true).1 = max 0 (hp - 80)) ∧
    (d = FRAG_RADIUS → 0 ≤ hp → ¬(hrHit = true ∧ hrDist < d - 1/10) →
      (fragApplyPawn d hrHit hrDist hp true).1 = hp) := by
  have hnR : ¬ FRAG_RADIUS < d := not_lt.mpr hR
  have blocked_false : ∀ (h : ¬(hrHit = true ∧ hrDist < d - 1/10)),
      (hrHit && decide (hrDist < d - 1/10)) = false := by
    intro h
    simp only [Bool.and_eq_false_iff, Bool.not_eq_true, decide_eq_false_iff_not]
    by_cases hh : hrHit = true
    · exact Or.inr fun hd => h ⟨hh, hd⟩
    · exact Or.inl (by simpa using hh)
  have main : ∀ (h : ¬(hrHit = true ∧ hrDist < d - 1/10)),
      (fragApplyPawn d hrHit hrDist hp true).1 =
        max 0 (hp - truncQ (FRAG_DAMAGE * (1 - d / FRAG_RADIUS))) := by
    intro h
    simp only [fragApplyPawn, Bool.not_true, Bool.false_eq_true, if_false]
    rw [if_neg hnR, if_neg (by rw [blocked_false h]; simp)]
  refine ⟨?_, ?_, ?_, ?_⟩
  · intro hh hd
    have hb : (hrHit && decide (hrDist < d - 1/10)) = true := by
      rw [hh]
      simpa using hd
    simp only [fragApplyPawn, Bool.not_true, Bool.false_eq_true, if_false]
    rw [if_neg hnR, if_pos hb]
  · intro h
    exact ⟨main h, by rw [main h]; exact le_max_left _ _⟩
  · intro hd h
    rw [main h, hd]
    norm_num [truncQ, FRAG_DAMAGE, FRAG_RADIUS]
  · intro hd hhp h
    rw [main h, hd]
    norm_num [truncQ, FRAG_DAMAGE, FRAG_RADIUS]
    exact hhp

/-- C4 witness: an unblocked pawn at half the blast radius with 100 HP is
left with exactly `100 - (int)(80 * 0.5) = 60` HP. -/
theorem C4_frag_falloff_witness :
    (fragApplyPawn (9/4) false 0 100 true).1 = 60 := by
  have h := (C4_frag_falloff (9/4) 0 false 100
      (by norm_num [FRAG_RADIUS])).2.1 (by simp)
  rw [h.1]
  norm_num [truncQ, FRAG_DAMAGE, FRAG_RADIUS]

/-! ### Global screen-effect timers (UtilitySystem.h lines 114-119) -/

/-- UtilitySystem.h line 115: the stun overlay counts straight down while
positive, with no clamp. -/
def stunStep (s dt : ℚ) : ℚ :=
  if 0 < s then s - dt else s

/-- UtilitySystem.h lines 118-119: the hit-flash decays at rate 2.5 per
second, clamped at zero. -/
def hitFlashStep (f dt : ℚ) : ℚ :=
  if 0 < f then max 0 (f - dt * (5/2)) else f

/-- C8 counterexample: a single utility update with `dt = 0.2` drives a
stun timer of `0.1` to `-0.1`, so the stun-overlay timer does take a
negative value after a sequence of per-frame updates. -/
theorem C8_stun_negative_counterexample :
    stunStep (1/10) (1/5) = -(1/10) ∧ stunStep (1/10) (1/5) < 0 ∧
    (0 : ℚ) ≤ 1/10 ∧ (0 : ℚ) ≤ 1/5 := by
  norm_num [stunStep]

/-- The amended C8: the hit-flash timer stays non-negative across every
sequence of updates; the stun timer is decremented only while positive
(once non-positive it is frozen), so across any sequence of frames whose
deltas are bounded by `D` it never drops below `-D` — a single crossing
frame can leave it negative by less than that frame's delta, as the
counterexample shows, but it never decreases further. -/
theorem C8_timer_decay_amended (dts : List ℚ) (f s D : ℚ)
    (hf : 0 ≤ f) (hs : 0 ≤ s) (hD : 0 ≤ D) (hdts : ∀ dt ∈ dts, dt ≤ D) :
    0 ≤ dts.foldl hitFlashStep f ∧
    -D ≤ dts.foldl stunStep s ∧
    (∀ s' dt : ℚ, s' ≤ 0 → stunStep s' dt = s') := by
  refine ⟨?_, ?_, ?_⟩
  · have main : ∀ (l : List ℚ) (g : ℚ), 0 ≤ g → 0 ≤ l.foldl hitFlashStep g := by
      intro l
      induction l with
      | nil => exact fun g hg => hg
      | cons dt rest ih =>
        intro g hg
        refine ih _ ?_
        unfold hitFlashStep
        split
        · exact le_max_left _ _
        · exact hg
    exact main dts f hf
  · have main : ∀ (l : List ℚ) (g : ℚ), -D ≤ g → (∀ dt ∈ l, dt ≤ D) →
        -D ≤ l.foldl stunStep g := by
      intro l
      induction l with
      | nil => exact fun g hg _ => hg
      | cons dt rest ih =>
        intro g hg hl
        refine ih _ ?_ fun x hx => hl x (List.mem_cons_of_mem _ hx)
        have hdt : dt ≤ D := hl dt (List.mem_cons_self _ _)
        unfold stunStep
        split
        · linarith
        · exact hg
    exact main dts s (le_trans (neg_nonpos.mpr hD) hs) hdts
  · intro s' dt hs'
    simp [stunStep, not_lt.mpr hs']

/-- C8 amended-claim witness: two half-second frames from flash 1 and
stun 1: the flash stays non-negative and the stun never drops below
`-0.5`. -/
theorem C8_timer_decay_amended_witness :
    0 ≤ List.foldl hitFlashStep 1 [1/2, 1/2] ∧
    -(1/2 : ℚ) ≤ List.foldl stunStep 1 [1/2, 1/2] := by
  have h := C8_timer_decay_amended [1/2, 1/2] 1 1 (1/2)
    (by norm_num) (by norm_num) (by norm_num)
    (by intro dt hdt; rcases List.mem_cons.mp hdt with h1 | h2
        · rw [h1]
        · rw [List.mem_singleton.mp h2])
  exact ⟨h.1, h.2.1⟩

/-! ### Movement sweep (Physics.h, `SweepAABB`)

The repository carries two variants of `Physics.h`; the one embedded here
is the variant whose Y-axis pass classifies ground contact from the
solid's floor flag and a `0.1` overlap threshold
(`onGround = s.isFloor || overlap0 < 0.1f`), which is the code the claim
quotes.  `testAxis` mirrors the source lambda: it scans the solids in
order and returns the penetration for the first overlapping solid (with,
on the Y axis, the assignment made to `onGround`);
`sweepAABB` chains the X, Z and Y passes, applies the source's
`if (py > -SKIN) onGround = true;` override and the hard ground clamp at
`y < 0`.  The source also zeroes `delta.y` on a Y collision, but `vel`
is passed by value and `delta.y` is never read afterwards, so that write
has no observable effect and is omitted. -/

/-- Physics.h (part variant) line 23: `SKIN = 0.001f`. -/
def SKIN : ℚ := 1/1000

/-- raylib `CheckCollisionBoxes`: inclusive AABB overlap on all axes. -/
def checkCollisionBoxes (a b : Box) : Bool :=
  decide (b.min.x ≤ a.max.x) && decide (a.min.x ≤ b.max.x) &&
  (decide (b.min.y ≤ a.max.y) && decide (a.min.y ≤ b.max.y)) &&
  (decide (b.min.z ≤ a.max.z) && decide (a.min.z ≤ b.max.z))

/-- The player's AABB at a tentative position (radius `PLAYER_RADIUS`,
height `PLAYER_HEIGHT`). -/
def pawnBoxAt (p : V3) : Box :=
  ⟨⟨p.x - PLAYER_RADIUS, p.y, p.z - PLAYER_RADIUS⟩,
   ⟨p.x + PLAYER_RADIUS, p.y + PLAYER_HEIGHT, p.z + PLAYER_RADIUS⟩⟩

/-- The source's `testAxis` lambda: first overlapping solid wins; the
returned pair is the axis penetration and, for the Y axis (`axis = 1`)
with a floor-side overlap, the assignment made to `onGround`
(`some (s.isFloor || overlap0 < 0.1)`). -/
def testAxis (tryPos : V3) (axis : Nat) : List MapSolid → ℚ × Option Bool
  | [] => (0, none)
  | s :: rest =>
    if checkCollisionBoxes (pawnBoxAt tryPos) s.bounds then
      if axis == 0 then
        let o0 := s.bounds.max.x - (tryPos.x - PLAYER_RADIUS)
        let o1 := (tryPos.x + PLAYER_RADIUS) - s.bounds.min.x
        ((if o0 < o1 then o0 else -o1), none)
      else if axis == 1 then
        let o0 := s.bounds.max.y - tryPos.y
        let o1 := (tryPos.y + PLAYER_HEIGHT) - s.bounds.min.y
        if o0 < o1 then (o0, some (s.isFloor || decide (o0 < 1/10)))
        else (-o1, none)
      else
        let o0 := s.bounds.max.z - (tryPos.z - PLAYER_RADIUS)
        let o1 := (tryPos.z + PLAYER_RADIUS) - s.bounds.min.z
        ((if o0 < o1 then o0 else -o1), none)
    else testAxis tryPos axis rest

/-- The resolved x position after the X pass. -/
def xAfter (pos vel : V3) (dt : ℚ) (solids : List MapSolid) : ℚ :=
  pos.x + vel.x * dt +
    (testAxis ⟨pos.x + vel.x * dt, pos.y, pos.z⟩ 0 solids).1

/-- The resolved z position after the Z pass (run at the post-X x). -/
def zAfter (pos vel : V3) (dt : ℚ) (solids : List MapSolid) : ℚ :=
  pos.z + vel.z * dt +
    (testAxis ⟨xAfter pos vel dt solids, pos.y, pos.z + vel.z * dt⟩ 2 solids).1

/-- The Y pass, run at the post-X/Z horizontal position and the tentative
height `pos.y + vel.y * dt`. -/
def yPassOf (pos vel : V3) (dt : ℚ) (solids : List MapSolid) : ℚ × Option Bool :=
  testAxis
    ⟨xAfter pos vel dt solids, pos.y + vel.y * dt, zAfter pos vel dt solids⟩
    1 solids

/-- The resolved height before the hard ground clamp. -/
def yResolved (pos vel : V3) (dt : ℚ) (solids : List MapSolid) : ℚ :=
  pos.y + vel.y * dt + (yPassOf pos vel dt solids).1

/-- `SweepAABB` (Physics.h variant with the floor-flag classification):
axis-separated X, Z, Y resolution, the `py > -SKIN` ground override, and
the `y < 0` clamp that always reports floor contact.  Returns the
resolved position and the `onGround` flag. -/
def sweepAABB (pos vel : V3) (dt : ℚ) (solids : List MapSolid) : V3 × Bool :=
  let px := xAfter pos vel dt solids
  let pz := zAfter pos vel dt solids
  let py := (yPassOf pos vel dt solids).1
  let og1 := (yPassOf pos vel dt solids).2.getD false
  let y1 := pos.y + vel.y * dt + py
  let og2 := if -SKIN < py then true else og1
  if y1 < 0 then (⟨px, 0, pz⟩, true) else (⟨px, y1, pz⟩, og2)

/-- A 1-metre-thick non-floor slab spanning heights 3 to 4. -/
def slabC6 : MapSolid := ⟨⟨⟨-10, 3, -10⟩, ⟨10, 4, 10⟩⟩, false⟩

/-- C6 counterexample: jumping 3.8 m up into the non-floor slab overlaps
it on the floor side by 0.2 (not below the 0.1 threshold), so the claimed
classification says no ground contact — yet the sweep reports the floor
flag as true, because any Y push above `-SKIN` forces the flag on. -/
theorem C6_floor_flag_counterexample :
    (sweepAABB ⟨0, 0, 0⟩ ⟨0, 19/5, 0⟩ 1 [slabC6]).2 = true ∧
    slabC6.isFloor = false ∧
    (yPassOf ⟨0, 0, 0⟩ ⟨0, 19/5, 0⟩ 1 [slabC6]).1 = 1/5 ∧
    ¬((1 : ℚ)/5 < 1/10) ∧
    (yPassOf ⟨0, 0, 0⟩ ⟨0, 19/5, 0⟩ 1 [slabC6]).2 = some false := by
  refine ⟨?_, rfl, ?_, by norm_num, ?_⟩ <;>
    norm_num [sweepAABB, yPassOf, yResolved, xAfter, zAfter, testAxis,
      checkCollisionBoxes, pawnBoxAt, PLAYER_RADIUS, PLAYER_HEIGHT, SKIN, slabC6]

/-- The amended C6: the returned floor flag is true exactly when the
Y-pass classification reported floor contact, or the net Y push exceeds
`-SKIN` (which includes every floor-side push regardless of the solid's
floor flag or overlap size, and frames with no Y overlap at all), or the
resolved height fell below the world floor; and the `y < 0` clamp always
snaps to ground level and reports floor contact. -/
theorem C6_sweep_floor_flag_amended (pos vel : V3) (dt : ℚ)
    (solids : List MapSolid) :
    ((sweepAABB pos vel dt solids).2 = true ↔
      (yPassOf pos vel dt solids).2 = some true ∨
      -SKIN < (yPassOf pos vel dt solids).1 ∨
      yResolved pos vel dt solids < 0) ∧
    (yResolved pos vel dt solids < 0 →
      (sweepAABB pos vel dt solids).1.y = 0 ∧
      (sweepAABB pos vel dt solids).2 = true) ∧
    ((yPassOf pos vel dt solids).2 = some true →
      (sweepAABB pos vel dt solids).2 = true) := by
  by_cases hy : pos.y + vel.y * dt + (yPassOf pos vel dt solids).1 < 0
  · refine ⟨?_, ?_, ?_⟩ <;> simp [sweepAABB, yResolved, hy]
  · by_cases hp : -SKIN < (yPassOf pos vel dt solids).1
    · refine ⟨?_, ?_, ?_⟩ <;> simp [sweepAABB, yResolved, hy, hp]
    · by_cases hg : (yPassOf pos vel dt solids).2 = some true
      · refine ⟨?_, ?_, ?_⟩ <;> simp [sweepAABB, yResolved, hy, hp, hg]
      · have hfalse : (yPassOf pos vel dt solids).2.getD false = false := by
          cases hopt : (yPassOf pos vel dt solids).2 with
          | none => rfl
          | some b =>
            cases b with
            | false => rfl
            | true => exact absurd hopt hg
        refine ⟨?_, ?_, ?_⟩ <;>
          simp [sweepAABB, yResolved, hy, hp, hg, hfalse]

/-- C6 amended-claim witness: a free fall below the world floor with no
geometry is clamped to ground level with the floor flag set. -/
theorem C6_sweep_floor_flag_amended_witness :
    (sweepAABB ⟨0, 0, 0⟩ ⟨0, -5, 0⟩ 1 []).1.y = 0 ∧
    (sweepAABB ⟨0, 0, 0⟩ ⟨0, -5, 0⟩ 1 []).2 = true :=
  (C6_sweep_floor_flag_amended ⟨0, 0, 0⟩ ⟨0, -5, 0⟩ 1 []).2.1
    (by norm_num [yResolved, yPassOf, xAfter, zAfter, testAxis])

end CsLite
